import Mathlib

/-!
Verification of the scifont font-resolution and style-application layer.

The development embeds the module `scifont/core.py` shallowly:

* Python strings are Lean `String`s; `sorted`, `str.strip`, `str.lower`
  and `str.startswith` are re-implemented structurally over the
  character list of a string (`pySorted`, `pyTrim`, `pyLower`,
  `pyStartsWith`) so that every definition evaluates inside the kernel.
* The module-level mutable state (the font-availability cache, the
  registered-bundled-font set, matplotlib's `rcParams`, and the
  "retina requested" side effect) is gathered in the structure `St`
  and threaded explicitly.
* The host environment (matplotlib's font manager, the bundled-fonts
  directory, the IPython kernel) is the read-only structure `Host`.
* Numbers stored into `rcParams` are rationals (the Python floats in
  the source are all decimal constants); DPI values are integers.
* Exceptions raised by `use` are modelled by an `Option PyError`
  result; a raised exception returns the state at the raise point.
-/

/-! ### Python string primitives, re-implemented structurally -/

/-- Lexicographic strict order on character lists by code point,
mirroring Python string comparison. -/
def charListLt : List Char → List Char → Bool
  | [], [] => false
  | [], _ :: _ => true
  | _ :: _, [] => false
  | a :: as, b :: bs =>
    if a.toNat < b.toNat then true
    else if b.toNat < a.toNat then false
    else charListLt as bs

/-- Python string `<=`: `a <= b` iff not `b < a`. -/
def pyStrLe (a b : String) : Bool := !(charListLt b.data a.data)

/-- Python `sorted` on a list of strings. -/
def pySorted (l : List String) : List String :=
  l.insertionSort (fun a b => pyStrLe a b = true)

/-- ASCII model of Python `str.lower` on a single character. -/
def pyCharLower (c : Char) : Char :=
  if 65 ≤ c.toNat ∧ c.toNat ≤ 90 then Char.ofNat (c.toNat + 32) else c

/-- Whitespace recognized by Python `str.strip`. -/
def pyIsSpace (c : Char) : Bool :=
  c = ' ' || c = '\t' || c = '\n' || c = '\r' || c.toNat = 11 || c.toNat = 12

/-- Python `str.lower` (ASCII model). -/
def pyLower (s : String) : String := ⟨s.data.map pyCharLower⟩

/-- Python `str.strip`. -/
def pyTrim (s : String) : String :=
  ⟨((s.data.dropWhile pyIsSpace).reverse.dropWhile pyIsSpace).reverse⟩

def charListIsPrefixOf : List Char → List Char → Bool
  | [], _ => true
  | _ :: _, [] => false
  | a :: as, b :: bs => a == b && charListIsPrefixOf as bs

/-- Python `str.startswith`: `pyStartsWith s p` iff `s` starts with `p`. -/
def pyStartsWith (s p : String) : Bool := charListIsPrefixOf p.data s.data

/-! ### Data model -/

/-- Observable phases of a `use` call, recorded in execution order:
the font-resolution/registration block (step 1 in the source), the
vector-output configuration (step 2), the Jupyter retina request
(step 2.5 in the source), the base numeric configuration (step 3) and
the per-style profile (step 4). -/
inductive Ev
  | resolveFonts
  | vectorOutput
  | retina
  | baseConfig
  | styleProfile
deriving DecidableEq, Repr

/-- One `*.ttf` file found in the bundled fonts directory.  `stem` is
the file name without extension, `path` the full path string, `isFile`
whether the path is a regular file, and `loadOk` whether
`fontManager.addfont` succeeds on it. -/
structure FontFile where
  path : String
  stem : String
  isFile : Bool
  loadOk : Bool
deriving DecidableEq, Repr

/-- The host environment consumed by the module: matplotlib's font
manager, the bundled-fonts directory, and the IPython kernel.  It is
read-only during a call. -/
structure Host where
  /-- `hasattr(fm, 'fontManager') and fm.fontManager is not None`. -/
  fontManagerInit : Bool
  /-- Whether reading `fm.fontManager.ttflist` succeeds. -/
  ttflistOk : Bool
  /-- The names of the fonts currently known to the font manager. -/
  availableFonts : List String
  /-- Whether the bundled `fonts` directory exists. -/
  fontDirExists : Bool
  /-- The `*.ttf` files found by `FONT_DIR.glob`, in scan order. -/
  fontFiles : List FontFile
  /-- Whether a Jupyter kernel is detected and retina can be set. -/
  ipythonKernel : Bool
  /-- Result of `_get_bundled_notosanssc_name()`. -/
  bundledCjkName : Option String
deriving DecidableEq, Repr

/-- The matplotlib `rcParams` keys written by the module. -/
structure Rc where
  pdfFonttype : ℤ
  psFonttype : ℤ
  svgFonttype : String
  figureDpi : ℤ
  savefigDpi : ℤ
  axesUnicodeMinus : Bool
  axesGrid : Bool
  xtickDirection : String
  ytickDirection : String
  xtickMajorSize : ℚ
  ytickMajorSize : ℚ
  xtickMinorSize : ℚ
  ytickMinorSize : ℚ
  fontFamily : String
  fontSansSerif : List String
  fontSerif : List String
  fontSize : ℚ
  axesLabelsize : ℚ
  xtickLabelsize : ℚ
  ytickLabelsize : ℚ
  legendFontsize : ℚ
  axesLinewidth : ℚ
  linesLinewidth : ℚ
  gridAlpha : ℚ
  gridLinewidth : ℚ
  gridLinestyle : String
deriving DecidableEq, Repr

/-- The process-wide mutable state of the module:
`_font_availability_cache` (an association list keyed by the sorted
candidate tuple), `_registered_bundled_fonts` (a set of path strings,
kept as a duplicate-free list), `rcParams`,  the number of host font
enumerations performed so far, the retina side effect, and the trace
of `use`-call phases. -/
structure St where
  cache : List (List String × Bool)
  registered : List String
  rc : Rc
  enumCount : Nat
  retinaRequested : Bool
  trace : List Ev
deriving DecidableEq, Repr

/-- Python dict lookup on the availability cache. -/
def cacheLookup (key : List String) : List (List String × Bool) → Option Bool
  | [] => none
  | (k, b) :: rest => if k = key then some b else cacheLookup key rest

/-! ### `_check_font_available` (the Font Resolver) -/

/-- The normalization step of `_check_font_available`: drop `None`
entries, then strip whitespace from each remaining name.  (Names that
strip to the empty string are kept, exactly as in the source.) -/
def normalizeCandidates (fontNames : List (Option String)) : List String :=
  (fontNames.filterMap id).map pyTrim

/-- The cache key used by `_check_font_available`:
`tuple(sorted(font_names))` after normalization. -/
def cacheKey (fontNames : List (Option String)) : List String :=
  pySorted (normalizeCandidates fontNames)

/-- `_check_font_available(font_names)`: returns the availability
boolean together with the updated module state. -/
def checkFontAvailable (host : Host) (fontNames : List (Option String)) (st : St) :
    Bool × St :=
  if fontNames.isEmpty then (false, st)
  else
    let names := normalizeCandidates fontNames
    if names.isEmpty then (false, st)
    else
      let key := pySorted names
      match cacheLookup key st.cache with
      | some b => (b, st)
      | none =>
        if !host.fontManagerInit then (false, st)
        else
          let st1 : St := { st with enumCount := st.enumCount + 1 }
          if !host.ttflistOk then (false, st1)
          else
            let result := names.any (fun n => host.availableFonts.contains n)
            (result, { st1 with cache := (key, result) :: st1.cache })

/-! ### `_get_chinese_fonts` -/

/-- The platform-ordered candidate list of `_get_chinese_fonts`. -/
def chineseFontCandidates : List String :=
  ["Microsoft YaHei", "SimHei", "SimSun", "KaiTi",
   "PingFang SC", "STHeiti", "STSong", "Arial Unicode MS",
   "Noto Sans CJK SC", "Source Han Sans SC",
   "WenQuanYi Micro Hei", "WenQuanYi Zen Hei"]

def getChineseFontsAux (host : Host) : List String → List String → St → List String × St
  | [], acc, st => (acc, st)
  | n :: rest, acc, st =>
    let r := checkFontAvailable host [some n] st
    if r.1 then
      let acc2 := acc ++ [n]
      if 2 ≤ acc2.length then (acc2, r.2)
      else getChineseFontsAux host rest acc2 r.2
    else getChineseFontsAux host rest acc r.2

/-- `_get_chinese_fonts()`: collects up to two available CJK fonts. -/
def getChineseFonts (host : Host) (st : St) : List String × St :=
  getChineseFontsAux host chineseFontCandidates [] st

/-! ### `_register_bundled_fonts` (the Font Registrar) -/

/-- The file-name markers selected for a requested family, from the
`font_prefixes` dispatch in `_register_bundled_fonts`.  Any string
other than the three named families falls into the `'all'` branch. -/
def fontPrefixes (fontFamily : String) : List String :=
  if fontFamily = "sans-serif" then ["Arimo"]
  else if fontFamily = "serif" then ["Tinos"]
  else if fontFamily = "chinese" then ["NotoSansSC"]
  else ["Arimo", "Tinos", "NotoSansSC"]

/-- The per-file loop of `_register_bundled_fonts`, threading the
state and the `registered_count` and `skipped_count` counters. -/
def registerFilesAux (markers : List String) :
    List FontFile → St → Nat → Nat → St × Nat × Nat
  | [], st, reg, skip => (st, reg, skip)
  | f :: rest, st, reg, skip =>
    if !(markers.any (fun p => pyStartsWith f.stem p)) then
      registerFilesAux markers rest st reg skip
    else if f.path ∈ st.registered then
      registerFilesAux markers rest st reg (skip + 1)
    else if !f.isFile then
      registerFilesAux markers rest st reg skip
    else if f.loadOk then
      registerFilesAux markers rest
        { st with registered := st.registered ++ [f.path] } (reg + 1) skip
    else
      registerFilesAux markers rest st reg skip

/-- `_register_bundled_fonts(font_family)`: returns the updated state
together with the final `registered_count`. -/
def registerBundledFonts (host : Host) (fontFamily : String) (st : St) : St × Nat :=
  if !host.fontDirExists then (st, 0)
  else if !host.fontManagerInit then (st, 0)
  else
    let r := registerFilesAux (fontPrefixes fontFamily) host.fontFiles st 0 0
    if 0 < r.2.1 then ({ r.1 with cache := [] }, r.2.1)
    else (r.1, r.2.1)

/-! ### The steps of `use` -/

/-- `_configure_vector_output()`. -/
def configureVectorOutput (rc : Rc) : Rc :=
  { rc with pdfFonttype := 42, psFonttype := 42, svgFonttype := "none" }

/-- `_configure_jupyter_retina()`: requests retina rendering when a
Jupyter kernel is detected, otherwise does nothing. -/
def configureJupyterRetina (host : Host) (st : St) : St :=
  if host.ipythonKernel then
    { st with retinaRequested := true, trace := st.trace ++ [Ev.retina] }
  else st

/-- Step 3 of `use`: the unconditional base configuration. -/
def baseConfigRc (rc : Rc) (dpi : ℤ) : Rc :=
  { rc with
      figureDpi := dpi
      savefigDpi := dpi
      axesUnicodeMinus := false
      axesGrid := false
      xtickDirection := "in"
      ytickDirection := "in"
      xtickMajorSize := 3.5
      ytickMajorSize := 3.5
      xtickMinorSize := 2
      ytickMinorSize := 2 }

/-- Step 1 of `use`: probe system fonts and register bundled fonts
when they are missing.  Returns `system_fonts_available` and the
updated state. -/
def resolveAndRegister (host : Host) (style : String) (st : St) : Bool × St :=
  if style = "zh" then
    let r := getChineseFonts host st
    if r.1.isEmpty then (false, (registerBundledFonts host ("chinese") r.2).1)
    else (false, r.2)
  else if style = "nature" ∨ style = "cell" ∨ style = "science" then
    let r := checkFontAvailable host [some ("Arial"), some ("Helvetica")] st
    if r.1 then (true, r.2)
    else (false, (registerBundledFonts host ("sans-serif") r.2).1)
  else if style = "ieee" then
    let r := checkFontAvailable host [some ("Times New Roman"), some ("Times")] st
    if r.1 then (true, r.2)
    else (false, (registerBundledFonts host ("serif") r.2).1)
  else
    let r := checkFontAvailable host [some ("Arial"), some ("Helvetica")] st
    if r.1 then (true, r.2)
    else (false, (registerBundledFonts host ("all") r.2).1)

/-- The sans-serif font list chosen by the `nature`, `cell` and
`science` branches of step 4. -/
def sansListFor (host : Host) (sysAvail : Bool) (st : St) : List String × St :=
  if sysAvail then (["Arial", "Helvetica", "Arimo", "DejaVu Sans"], st)
  else
    let r := checkFontAvailable host [some ("Arimo")] st
    if r.1 then (["Arimo", "DejaVu Sans"], r.2)
    else (["DejaVu Sans", "sans-serif"], r.2)

/-- Step 4 of `use`: the per-style profile. -/
def applyStyleSettings (host : Host) (style : String) (sysAvail : Bool) (st : St) : St :=
  if style = "zh" then
    let r := getChineseFonts host st
    let rc1 :=
      if r.1.isEmpty then
        match host.bundledCjkName with
        | some name =>
          { r.2.rc with fontFamily := "sans-serif",
                        fontSansSerif := [name, "DejaVu Sans", "sans-serif"] }
        | none =>
          { r.2.rc with fontFamily := "sans-serif",
                        fontSansSerif := ["DejaVu Sans", "sans-serif"] }
      else
        { r.2.rc with fontFamily := "sans-serif",
                      fontSansSerif := r.1 ++ ["DejaVu Sans", "sans-serif"] }
    { r.2 with rc :=
        { rc1 with fontSize := 8, axesLabelsize := 9, xtickLabelsize := 8,
                   ytickLabelsize := 8, legendFontsize := 7,
                   axesLinewidth := 1, linesLinewidth := 1 } }
  else if style = "nature" then
    let r := sansListFor host sysAvail st
    { r.2 with rc :=
        { r.2.rc with fontFamily := "sans-serif", fontSansSerif := r.1,
                      fontSize := 7, axesLabelsize := 8, xtickLabelsize := 7,
                      ytickLabelsize := 7, legendFontsize := 6,
                      axesLinewidth := 0.5, linesLinewidth := 1 } }
  else if style = "cell" then
    let r := sansListFor host sysAvail st
    { r.2 with rc :=
        { r.2.rc with fontFamily := "sans-serif", fontSansSerif := r.1,
                      fontSize := 8, axesLabelsize := 9, xtickLabelsize := 8,
                      ytickLabelsize := 8, legendFontsize := 7,
                      axesLinewidth := 1, linesLinewidth := 1 } }
  else if style = "science" then
    let r := sansListFor host sysAvail st
    { r.2 with rc :=
        { r.2.rc with fontFamily := "sans-serif", fontSansSerif := r.1,
                      fontSize := 8, axesLabelsize := 10, xtickLabelsize := 9,
                      ytickLabelsize := 9, legendFontsize := 8,
                      axesLinewidth := 1, linesLinewidth := 1 } }
  else if style = "ieee" then
    let r :=
      if sysAvail then ((["Times New Roman", "Times", "Tinos", "DejaVu Serif"] : List String), st)
      else
        let r0 := checkFontAvailable host [some ("Tinos")] st
        if r0.1 then (["Tinos", "DejaVu Serif"], r0.2)
        else (["DejaVu Serif", "serif"], r0.2)
    { r.2 with rc :=
        { r.2.rc with fontFamily := "serif", fontSerif := r.1,
                      fontSize := 8, axesLabelsize := 9, xtickLabelsize := 9,
                      ytickLabelsize := 9, legendFontsize := 8,
                      axesLinewidth := 1, linesLinewidth := 1,
                      axesGrid := true, gridAlpha := 0.3,
                      gridLinewidth := 0.5, gridLinestyle := "--" } }
  else
    let r :=
      if sysAvail then ((["Arial", "Helvetica", "Arimo", "sans-serif"] : List String), st)
      else
        let r0 := checkFontAvailable host [some ("Arimo")] st
        if r0.1 then (["Arimo", "sans-serif"], r0.2)
        else (["sans-serif"], r0.2)
    { r.2 with rc :=
        { r.2.rc with fontFamily := "sans-serif", fontSansSerif := r.1 } }

/-- The body of `use` after argument validation has passed, with the
style already normalized and the dpi already coerced to an integer. -/
def useAfterValidation (host : Host) (style : String) (dpi : ℤ) (st : St) : St :=
  let r1 := resolveAndRegister host style st
  let st1 := { r1.2 with trace := r1.2.trace ++ [Ev.resolveFonts] }
  let st2 := { st1 with rc := configureVectorOutput st1.rc,
                        trace := st1.trace ++ [Ev.vectorOutput] }
  let st3 := configureJupyterRetina host st2
  let st4 := { st3 with rc := baseConfigRc st3.rc dpi,
                        trace := st3.trace ++ [Ev.baseConfig] }
  let st5 := applyStyleSettings host style r1.1 st4
  { st5 with trace := st5.trace ++ [Ev.styleProfile] }

/-! ### `use` with argument validation -/

/-- A Python value passed as an argument to `use`. -/
inductive PyVal
  | str (s : String)
  | int (n : ℤ)
  | float (q : ℚ)
  | other
deriving DecidableEq, Repr

/-- The two exception classes `use` can raise during validation. -/
inductive PyError
  | typeError
  | valueError
deriving DecidableEq, Repr

/-- Python `int()` on a rational: truncation toward zero. -/
def pyTrunc (q : ℚ) : ℤ := if 0 ≤ q then q.floor else q.ceil

/-- `int(dpi)` when `isinstance(dpi, (int, float))`, else `none`. -/
def dpiToInt : PyVal → Option ℤ
  | PyVal.int n => some n
  | PyVal.float q => some (pyTrunc q)
  | _ => none

/-- `use(style, dpi)`.  Returns the final module state and `none`, or
the state at the raise point and the raised exception class. -/
def use (host : Host) (styleArg dpiArg : PyVal) (st : St) : St × Option PyError :=
  match styleArg with
  | PyVal.str s =>
    let style := pyTrim (pyLower s)
    if style = "" then (st, some PyError.valueError)
    else
      match dpiToInt dpiArg with
      | none => (st, some PyError.typeError)
      | some dpi =>
        if dpi < 50 ∨ 2000 < dpi then (st, some PyError.valueError)
        else (useAfterValidation host style dpi st, none)
  | _ => (st, some PyError.typeError)

/-- The five style identifiers with a dedicated profile in `use`. -/
def recognizedStyles : List String := ["zh", "nature", "cell", "science", "ieee"]

/-! ### Concrete hosts and states for witnesses -/

/-- An `rcParams` snapshot before any `use` call (matplotlib-like
defaults; the exact values are irrelevant to the theorems). -/
def initRc : Rc :=
  { pdfFonttype := 3, psFonttype := 3, svgFonttype := "path",
    figureDpi := 100, savefigDpi := 100, axesUnicodeMinus := true,
    axesGrid := false, xtickDirection := "out", ytickDirection := "out",
    xtickMajorSize := 7, ytickMajorSize := 7, xtickMinorSize := 4,
    ytickMinorSize := 4, fontFamily := "sans-serif",
    fontSansSerif := ["DejaVu Sans"], fontSerif := ["DejaVu Serif"],
    fontSize := 10, axesLabelsize := 10, xtickLabelsize := 10,
    ytickLabelsize := 10, legendFontsize := 10, axesLinewidth := 1,
    linesLinewidth := 2, gridAlpha := 1, gridLinewidth := 1,
    gridLinestyle := "-" }

/-- The module state at process start: empty cache, empty
registered-font set. -/
def initSt : St :=
  { cache := [], registered := [], rc := initRc, enumCount := 0,
    retinaRequested := false, trace := [] }

/-- A healthy host with Arial and Times available and one bundled
Arimo file. -/
def goodHost : Host :=
  { fontManagerInit := true, ttflistOk := true,
    availableFonts := ["Arial", "Times New Roman", "DejaVu Sans"],
    fontDirExists := true,
    fontFiles := [{ path := "/pkg/fonts/Arimo-Regular.ttf",
                    stem := "Arimo-Regular", isFile := true, loadOk := true }],
    ipythonKernel := false, bundledCjkName := none }

/-- `goodHost` running inside a Jupyter kernel. -/
def kernelHost : Host :=
  { goodHost with ipythonKernel := true }

/-- A host whose font manager is not initialized. -/
def badHost : Host :=
  { goodHost with fontManagerInit := false }

/-! ### Order properties of the string comparison -/

theorem charListLt_irrefl : ∀ l : List Char, charListLt l l = false
  | [] => rfl
  | a :: as => by simp [charListLt, charListLt_irrefl as]

theorem charListLt_trans : ∀ {a b c : List Char},
    charListLt a b = true → charListLt b c = true → charListLt a c = true
  | [], [], _ :: _, _, _ => rfl
  | [], _ :: _, _ :: _, _, _ => rfl
  | a :: as, b :: bs, c :: cs, h1, h2 => by
    simp only [charListLt] at h1 h2 ⊢
    split_ifs at h1 h2 ⊢ <;>
      first
        | rfl
        | omega
        | exact charListLt_trans h1 h2

theorem charListLt_connex : ∀ {a b : List Char},
    charListLt a b = false → charListLt b a = false → a = b
  | [], [], _, _ => rfl
  | [], _ :: _, h, _ => by simp [charListLt] at h
  | _ :: _, [], _, h => by simp [charListLt] at h
  | a :: as, b :: bs, h1, h2 => by
    simp only [charListLt] at h1 h2
    rcases Nat.lt_trichotomy a.toNat b.toNat with hab | hab | hab
    · simp [hab] at h1
    · have : a = b := Char.ext (UInt32.toNat.inj hab)
      subst this
      simp only [Nat.lt_irrefl, if_neg (Nat.lt_irrefl _)] at h1 h2
      rw [charListLt_connex h1 h2]
    · simp [hab, Nat.lt_asymm hab] at h2

instance pyLeTotal : IsTotal String (fun a b => pyStrLe a b = true) where
  total a b := by
    simp only [pyStrLe, Bool.not_eq_true']
    by_cases h : charListLt b.data a.data = true
    · right
      by_contra hc
      simp only [Bool.not_eq_false] at hc
      have hbb : charListLt b.data b.data = true := charListLt_trans h hc
      rw [charListLt_irrefl] at hbb
      exact Bool.noConfusion hbb
    · left
      simpa using h

instance pyLeTrans : IsTrans String (fun a b => pyStrLe a b = true) where
  trans a b c h1 h2 := by
    simp only [pyStrLe, Bool.not_eq_true'] at h1 h2 ⊢
    by_contra hc
    simp only [Bool.not_eq_false] at hc
    by_cases hab : charListLt a.data b.data = true
    · have := charListLt_trans hc hab
      simp [this] at h2
    · simp only [Bool.not_eq_true] at hab
      have heq := charListLt_connex h1 hab
      rw [← heq] at hc
      simp [hc] at h2

instance pyLeAntisymm : IsAntisymm String (fun a b => pyStrLe a b = true) where
  antisymm a b h1 h2 := by
    simp only [pyStrLe, Bool.not_eq_true'] at h1 h2
    have h := charListLt_connex h2 h1
    cases a
    cases b
    simp_all

/-- Sorting is invariant under permutation of the input, i.e. it only
depends on the multiset of entries. -/
theorem pySorted_perm_eq {l1 l2 : List String} (h : l1.Perm l2) :
    pySorted l1 = pySorted l2 :=
  List.eq_of_perm_of_sorted
    ((List.perm_insertionSort _ l1).trans (h.trans (List.perm_insertionSort _ l2).symm))
    (List.sorted_insertionSort _ l1) (List.sorted_insertionSort _ l2)

/-! ### State-preservation lemmas -/

/-- `_check_font_available` only writes the cache and performs host
enumerations; every other component of the state is untouched. -/
theorem chk_st (host : Host) (l : List (Option String)) (st : St) :
    ((checkFontAvailable host l st).2.rc = st.rc) ∧
    ((checkFontAvailable host l st).2.registered = st.registered) ∧
    ((checkFontAvailable host l st).2.trace = st.trace) ∧
    ((checkFontAvailable host l st).2.retinaRequested = st.retinaRequested) := by
  simp only [checkFontAvailable]
  split
  · exact ⟨rfl, rfl, rfl, rfl⟩
  · split
    · exact ⟨rfl, rfl, rfl, rfl⟩
    · split
      · exact ⟨rfl, rfl, rfl, rfl⟩
      · split
        · exact ⟨rfl, rfl, rfl, rfl⟩
        · split
          · exact ⟨rfl, rfl, rfl, rfl⟩
          · exact ⟨rfl, rfl, rfl, rfl⟩

/-- The availability result depends on the state only through the
cache. -/
theorem chk_cache_congr (host : Host) (l : List (Option String)) {st1 st2 : St}
    (h : st1.cache = st2.cache) :
    (checkFontAvailable host l st1).1 = (checkFontAvailable host l st2).1 := by
  simp only [checkFontAvailable]
  rw [h]
  split
  · rfl
  · split
    · rfl
    · split
      · rfl
      · split
        · rfl
        · split
          · rfl
          · rfl

/-- `_get_chinese_fonts` only writes the cache and the enumeration
counter. -/
theorem gcfAux_st (host : Host) : ∀ (l acc : List String) (st : St),
    ((getChineseFontsAux host l acc st).2.rc = st.rc) ∧
    ((getChineseFontsAux host l acc st).2.registered = st.registered) ∧
    ((getChineseFontsAux host l acc st).2.trace = st.trace) ∧
    ((getChineseFontsAux host l acc st).2.retinaRequested = st.retinaRequested)
  | [], _, _ => ⟨rfl, rfl, rfl, rfl⟩
  | n :: rest, acc, st => by
    simp only [getChineseFontsAux]
    split
    · split
      · exact chk_st host [some n] st
      · have ih := gcfAux_st host rest (acc ++ [n]) (checkFontAvailable host [some n] st).2
        have hc := chk_st host [some n] st
        exact ⟨ih.1.trans hc.1, ih.2.1.trans hc.2.1, ih.2.2.1.trans hc.2.2.1,
               ih.2.2.2.trans hc.2.2.2⟩
    · have ih := gcfAux_st host rest acc (checkFontAvailable host [some n] st).2
      have hc := chk_st host [some n] st
      exact ⟨ih.1.trans hc.1, ih.2.1.trans hc.2.1, ih.2.2.1.trans hc.2.2.1,
             ih.2.2.2.trans hc.2.2.2⟩

theorem gcf_st (host : Host) (st : St) :
    ((getChineseFonts host st).2.rc = st.rc) ∧
    ((getChineseFonts host st).2.registered = st.registered) ∧
    ((getChineseFonts host st).2.trace = st.trace) ∧
    ((getChineseFonts host st).2.retinaRequested = st.retinaRequested) :=
  gcfAux_st host chineseFontCandidates [] st

/-- The registration loop only appends to the registered set; the
cache, rcParams, trace, retina flag and enumeration counter are left
alone. -/
theorem regAux_st (markers : List String) : ∀ (files : List FontFile) (st : St) (reg skip : Nat),
    ((registerFilesAux markers files st reg skip).1.cache = st.cache) ∧
    ((registerFilesAux markers files st reg skip).1.rc = st.rc) ∧
    ((registerFilesAux markers files st reg skip).1.trace = st.trace) ∧
    ((registerFilesAux markers files st reg skip).1.retinaRequested = st.retinaRequested) ∧
    ((registerFilesAux markers files st reg skip).1.enumCount = st.enumCount)
  | [], _, _, _ => ⟨rfl, rfl, rfl, rfl, rfl⟩
  | f :: rest, st, reg, skip => by
    simp only [registerFilesAux]
    split
    · exact regAux_st markers rest st reg skip
    · split
      · exact regAux_st markers rest st reg (skip + 1)
      · split
        · exact regAux_st markers rest st reg skip
        · split
          · exact regAux_st markers rest
              { st with registered := st.registered ++ [f.path] } (reg + 1) skip
          · exact regAux_st markers rest st reg skip

/-- Membership in the registered set survives the registration loop. -/
theorem regAux_mem (markers : List String) :
    ∀ (files : List FontFile) (st : St) (reg skip : Nat) (x : String),
    x ∈ st.registered → x ∈ (registerFilesAux markers files st reg skip).1.registered
  | [], _, _, _, _, hx => hx
  | f :: rest, st, reg, skip, x, hx => by
    simp only [registerFilesAux]
    split
    · exact regAux_mem markers rest st reg skip x hx
    · split
      · exact regAux_mem markers rest st reg (skip + 1) x hx
      · split
        · exact regAux_mem markers rest st reg skip x hx
        · split
          · exact regAux_mem markers rest
              { st with registered := st.registered ++ [f.path] } (reg + 1) skip x
              (List.mem_append_left _ hx)
          · exact regAux_mem markers rest st reg skip x hx

/-- Every file that matches the requested family and can be loaded
ends up in the registered set after the registration loop. -/
theorem regAux_covers (markers : List String) :
    ∀ (files : List FontFile) (st : St) (reg skip : Nat) (f : FontFile),
    f ∈ files → markers.any (fun p => pyStartsWith f.stem p) = true →
    f.isFile = true → f.loadOk = true →
    f.path ∈ (registerFilesAux markers files st reg skip).1.registered
  | [], _, _, _, f, hf, _, _, _ => absurd hf (List.not_mem_nil f)
  | g :: rest, st, reg, skip, f, hf, hm, hif, hlo => by
    rcases List.mem_cons.mp hf with heq | htail
    · subst heq
      simp only [registerFilesAux]
      split
      · rename_i hcond
        rw [hm] at hcond
        simp at hcond
      · split
        · rename_i hmem
          exact regAux_mem markers rest st reg (skip + 1) f.path hmem
        · split
          · rename_i hnf
            rw [hif] at hnf
            simp at hnf
          · exact regAux_mem markers rest
              { st with registered := st.registered ++ [f.path] } (reg + 1) skip f.path
              (List.mem_append_right _ (List.mem_singleton.mpr rfl))
    · simp only [registerFilesAux]
      split
      · exact regAux_covers markers rest st reg skip f htail hm hif hlo
      · split
        · exact regAux_covers markers rest st reg (skip + 1) f htail hm hif hlo
        · split
          · exact regAux_covers markers rest st reg skip f htail hm hif hlo
          · split
            · exact regAux_covers markers rest
                { st with registered := st.registered ++ [g.path] } (reg + 1) skip f
                htail hm hif hlo
            · exact regAux_covers markers rest st reg skip f htail hm hif hlo

/-- When every loadable matching file is already registered, the
registration loop is a no-op and registers nothing. -/
theorem regAux_noop (markers : List String) :
    ∀ (files : List FontFile) (st : St) (reg skip : Nat),
    (∀ f ∈ files, markers.any (fun p => pyStartsWith f.stem p) = true →
      f.isFile = true → f.loadOk = true → f.path ∈ st.registered) →
    (registerFilesAux markers files st reg skip).1 = st ∧
    (registerFilesAux markers files st reg skip).2.1 = reg
  | [], _, _, _, _ => ⟨rfl, rfl⟩
  | f :: rest, st, reg, skip, h => by
    have hrest : ∀ g ∈ rest, markers.any (fun p => pyStartsWith g.stem p) = true →
        g.isFile = true → g.loadOk = true → g.path ∈ st.registered :=
      fun g hg => h g (List.mem_cons_of_mem f hg)
    simp only [registerFilesAux]
    split
    · exact regAux_noop markers rest st reg skip hrest
    · split
      · exact regAux_noop markers rest st reg (skip + 1) hrest
      · split
        · exact regAux_noop markers rest st reg skip hrest
        · split
          · rename_i hcond hmem hnf hload
            simp only [Bool.not_eq_true'] at hcond hnf
            simp only [Bool.not_eq_false] at hcond hnf
            exact absurd (h f (List.mem_cons_self f rest) hcond hnf hload) hmem
          · exact regAux_noop markers rest st reg skip hrest

/-- `_register_bundled_fonts` touches only the registered set and the
cache. -/
theorem register_st (host : Host) (fam : String) (st : St) :
    ((registerBundledFonts host fam st).1.rc = st.rc) ∧
    ((registerBundledFonts host fam st).1.trace = st.trace) ∧
    ((registerBundledFonts host fam st).1.retinaRequested = st.retinaRequested) ∧
    ((registerBundledFonts host fam st).1.enumCount = st.enumCount) := by
  simp only [registerBundledFonts]
  split
  · exact ⟨rfl, rfl, rfl, rfl⟩
  · split
    · exact ⟨rfl, rfl, rfl, rfl⟩
    · have h := regAux_st (fontPrefixes fam) host.fontFiles st 0 0
      split
      · exact ⟨h.2.1, h.2.2.1, h.2.2.2.1, h.2.2.2.2⟩
      · exact ⟨h.2.1, h.2.2.1, h.2.2.2.1, h.2.2.2.2⟩

/-- The retina step never touches `rcParams`. -/
theorem retina_rc (host : Host) (st : St) :
    (configureJupyterRetina host st).rc = st.rc := by
  simp only [configureJupyterRetina]
  split
  · rfl
  · rfl

/-- The trace written by the retina step. -/
theorem retina_trace (host : Host) (st : St) :
    (configureJupyterRetina host st).trace =
      st.trace ++ (if host.ipythonKernel then [Ev.retina] else []) := by
  simp only [configureJupyterRetina]
  split
  · rfl
  · simp

theorem sansListFor_st (host : Host) (b : Bool) (st : St) :
    ((sansListFor host b st).2.rc = st.rc) ∧
    ((sansListFor host b st).2.trace = st.trace) ∧
    ((sansListFor host b st).2.retinaRequested = st.retinaRequested) := by
  have h := chk_st host [some ("Arimo")] st
  simp only [sansListFor]
  split
  · exact ⟨rfl, rfl, rfl⟩
  · split
    · exact ⟨h.1, h.2.2.1, h.2.2.2⟩
    · exact ⟨h.1, h.2.2.1, h.2.2.2⟩

/-- The per-style step never touches the DPI keys, the trace, or the
retina flag. -/
theorem app_st (host : Host) (sty : String) (b : Bool) (st : St) :
    ((applyStyleSettings host sty b st).rc.figureDpi = st.rc.figureDpi) ∧
    ((applyStyleSettings host sty b st).rc.savefigDpi = st.rc.savefigDpi) ∧
    ((applyStyleSettings host sty b st).trace = st.trace) ∧
    ((applyStyleSettings host sty b st).retinaRequested = st.retinaRequested) := by
  have hg := gcf_st host st
  have hs := sansListFor_st host b st
  have ht := chk_st host [some ("Tinos")] st
  have ha := chk_st host [some ("Arimo")] st
  simp only [applyStyleSettings]
  split_ifs <;>
    (try split) <;>
    exact ⟨by simp [hg.1, hs.1, ht.1, ha.1],
           by simp [hg.1, hs.1, ht.1, ha.1],
           by simp [hg.2.2.1, hs.2.1, ht.2.2.1, ha.2.2.1],
           by simp [hg.2.2.2, hs.2.2, ht.2.2.2, ha.2.2.2]⟩

/-- Step 1 only writes the cache, the registered set and the
enumeration counter. -/
theorem resolve_st (host : Host) (sty : String) (st : St) :
    ((resolveAndRegister host sty st).2.rc = st.rc) ∧
    ((resolveAndRegister host sty st).2.trace = st.trace) ∧
    ((resolveAndRegister host sty st).2.retinaRequested = st.retinaRequested) := by
  have hg := gcf_st host st
  have hsans := chk_st host [some ("Arial"), some ("Helvetica")] st
  have htimes := chk_st host [some ("Times New Roman"), some ("Times")] st
  simp only [resolveAndRegister]
  split_ifs <;>
    first
      | exact ⟨hg.1, hg.2.2.1, hg.2.2.2⟩
      | exact ⟨hsans.1, hsans.2.2.1, hsans.2.2.2⟩
      | exact ⟨htimes.1, htimes.2.2.1, htimes.2.2.2⟩
      | (rename_i hzh _
         exact
          ⟨(register_st host ("chinese") (getChineseFonts host st).2).1.trans hg.1,
           (register_st host ("chinese") (getChineseFonts host st).2).2.1.trans hg.2.2.1,
           (register_st host ("chinese") (getChineseFonts host st).2).2.2.1.trans hg.2.2.2⟩)
      | (exact
          ⟨(register_st host ("sans-serif")
              (checkFontAvailable host [some ("Arial"), some ("Helvetica")] st).2).1.trans hsans.1,
           (register_st host ("sans-serif")
              (checkFontAvailable host [some ("Arial"), some ("Helvetica")] st).2).2.1.trans
             hsans.2.2.1,
           (register_st host ("sans-serif")
              (checkFontAvailable host [some ("Arial"), some ("Helvetica")] st).2).2.2.1.trans
             hsans.2.2.2⟩)
      | (exact
          ⟨(register_st host ("serif")
              (checkFontAvailable host [some ("Times New Roman"), some ("Times")] st).2).1.trans
             htimes.1,
           (register_st host ("serif")
              (checkFontAvailable host [some ("Times New Roman"), some ("Times")] st).2).2.1.trans
             htimes.2.2.1,
           (register_st host ("serif")
              (checkFontAvailable host [some ("Times New Roman"), some ("Times")] st).2).2.2.1.trans
             htimes.2.2.2⟩)
      | (exact
          ⟨(register_st host ("all")
              (checkFontAvailable host [some ("Arial"), some ("Helvetica")] st).2).1.trans hsans.1,
           (register_st host ("all")
              (checkFontAvailable host [some ("Arial"), some ("Helvetica")] st).2).2.1.trans
             hsans.2.2.1,
           (register_st host ("all")
              (checkFontAvailable host [some ("Arial"), some ("Helvetica")] st).2).2.2.1.trans
             hsans.2.2.2⟩)

/-- After validation, `use` always writes the validated dpi into both
resolution keys. -/
theorem uav_dpi (host : Host) (sty : String) (dpi : ℤ) (st : St) :
    ((useAfterValidation host sty dpi st).rc.figureDpi = dpi) ∧
    ((useAfterValidation host sty dpi st).rc.savefigDpi = dpi) := by
  simp only [useAfterValidation]
  constructor
  · rw [(app_st host sty _ _).1]
    simp [baseConfigRc]
  · rw [(app_st host sty _ _).2.1]
    simp [baseConfigRc]

/-- The phases of a validated `use` call append to the trace in
source order: step 1, step 2, the optional retina step 2.5, step 3,
step 4. -/
theorem uav_trace (host : Host) (sty : String) (dpi : ℤ) (st : St) :
    (useAfterValidation host sty dpi st).trace =
      st.trace ++ [Ev.resolveFonts, Ev.vectorOutput] ++
        (if host.ipythonKernel then [Ev.retina] else []) ++
        [Ev.baseConfig, Ev.styleProfile] := by
  simp only [useAfterValidation]
  rw [(app_st host sty _ _).2.2.1]
  simp only [retina_trace]
  rw [(resolve_st host sty st).2.1]
  simp [List.append_assoc]

/-- For a style that matches none of the five recognized identifiers,
the per-style step writes only the font family and a fallback
sans-serif list; every size and width key keeps the value it had when
the call started (step 3 does not touch them either). -/
theorem uav_unknown (host : Host) (sty : String) (dpi : ℤ) (st : St)
    (h1 : sty ≠ "zh") (h2 : sty ≠ "nature") (h3 : sty ≠ "cell")
    (h4 : sty ≠ "science") (h5 : sty ≠ "ieee") :
    ((useAfterValidation host sty dpi st).rc.fontFamily = "sans-serif") ∧
    ((useAfterValidation host sty dpi st).rc.fontSansSerif =
        ["Arial", "Helvetica", "Arimo", "sans-serif"] ∨
     (useAfterValidation host sty dpi st).rc.fontSansSerif = ["Arimo", "sans-serif"] ∨
     (useAfterValidation host sty dpi st).rc.fontSansSerif = ["sans-serif"]) ∧
    ((useAfterValidation host sty dpi st).rc.fontSize = st.rc.fontSize) ∧
    ((useAfterValidation host sty dpi st).rc.axesLabelsize = st.rc.axesLabelsize) ∧
    ((useAfterValidation host sty dpi st).rc.xtickLabelsize = st.rc.xtickLabelsize) ∧
    ((useAfterValidation host sty dpi st).rc.ytickLabelsize = st.rc.ytickLabelsize) ∧
    ((useAfterValidation host sty dpi st).rc.legendFontsize = st.rc.legendFontsize) ∧
    ((useAfterValidation host sty dpi st).rc.axesLinewidth = st.rc.axesLinewidth) ∧
    ((useAfterValidation host sty dpi st).rc.linesLinewidth = st.rc.linesLinewidth) ∧
    ((useAfterValidation host sty dpi st).rc.fontSerif = st.rc.fontSerif) := by
  simp only [useAfterValidation, applyStyleSettings]
  rw [if_neg h1, if_neg h2, if_neg h3, if_neg h4, if_neg h5]
  split
  · refine ⟨rfl, Or.inl rfl, ?_, ?_, ?_, ?_, ?_, ?_, ?_, ?_⟩ <;>
      simp [retina_rc, resolve_st, baseConfigRc, configureVectorOutput]
  · split
    · refine ⟨rfl, Or.inr (Or.inl rfl), ?_, ?_, ?_, ?_, ?_, ?_, ?_, ?_⟩ <;>
        simp [chk_st, retina_rc, resolve_st, baseConfigRc, configureVectorOutput]
    · refine ⟨rfl, Or.inr (Or.inr rfl), ?_, ?_, ?_, ?_, ?_, ?_, ?_, ?_⟩ <;>
        simp [chk_st, retina_rc, resolve_st, baseConfigRc, configureVectorOutput]

theorem isEmpty_false_of_ne_nil {α : Type} {l : List α} (h : l ≠ []) :
    l.isEmpty = false := by
  cases l
  · exact absurd rfl h
  · rfl

/-! ### Claims -/

/-- Claim C1, counterexample: the candidate lists `["Arial"]` and
`["Arial", "Arial"]` contain the same set of non-blank trimmed names,
yet their cache keys differ (the key is the sorted tuple, which keeps
duplicates), and the second call performs a second host enumeration
instead of hitting the entry cached by the first call. -/
theorem c1_sameSetDifferentKey :
    ((normalizeCandidates [some ("Arial")]).all
      (fun x => (normalizeCandidates [some ("Arial"), some ("Arial")]).contains x) = true) ∧
    ((normalizeCandidates [some ("Arial"), some ("Arial")]).all
      (fun x => (normalizeCandidates [some ("Arial")]).contains x) = true) ∧
    (cacheKey [some ("Arial")] ≠ cacheKey [some ("Arial"), some ("Arial")]) ∧
    ((checkFontAvailable goodHost [some ("Arial")] initSt).2.enumCount = 1) ∧
    ((checkFontAvailable goodHost [some ("Arial"), some ("Arial")]
        (checkFontAvailable goodHost [some ("Arial")] initSt).2).2.enumCount = 2) := by
  decide

/-- Claim C1 (amended): for candidate lists whose normalized (trimmed,
`None`-filtered) name sequences are permutations of one another (same
multiset of names), `is_any_available` uses the same cache key; once
the first call has run against a working host, the second call
returns the identical boolean from the cache and changes nothing — in
particular it performs no second host enumeration. -/
theorem c1_sameMultisetHitsCache (host : Host) (l1 l2 : List (Option String)) (st : St)
    (hinit : host.fontManagerInit = true) (httf : host.ttflistOk = true)
    (hne : normalizeCandidates l1 ≠ [])
    (hperm : (normalizeCandidates l1).Perm (normalizeCandidates l2)) :
    (cacheKey l1 = cacheKey l2) ∧
    checkFontAvailable host l2 (checkFontAvailable host l1 st).2 =
      ((checkFontAvailable host l1 st).1, (checkFontAvailable host l1 st).2) := by
  have hkey : pySorted (normalizeCandidates l1) = pySorted (normalizeCandidates l2) :=
    pySorted_perm_eq hperm
  refine ⟨hkey, ?_⟩
  have hn2 : normalizeCandidates l2 ≠ [] := fun h => hne (h ▸ hperm).eq_nil
  have hl1 : l1.isEmpty = false :=
    isEmpty_false_of_ne_nil (fun h => hne (by rw [h]; rfl))
  have hl2 : l2.isEmpty = false :=
    isEmpty_false_of_ne_nil (fun h => hn2 (by rw [h]; rfl))
  have hne1 : (normalizeCandidates l1).isEmpty = false := isEmpty_false_of_ne_nil hne
  have hne2 : (normalizeCandidates l2).isEmpty = false := isEmpty_false_of_ne_nil hn2
  cases hc : cacheLookup (pySorted (normalizeCandidates l1)) st.cache with
  | some b =>
    have h1 : checkFontAvailable host l1 st = (b, st) := by
      simp [checkFontAvailable, hl1, hne1, hc]
    rw [h1]
    simp [checkFontAvailable, hl2, hne2, ← hkey, hc]
  | none =>
    have h1 : checkFontAvailable host l1 st =
        ((normalizeCandidates l1).any (fun n => host.availableFonts.contains n),
         { st with
             enumCount := st.enumCount + 1,
             cache := (pySorted (normalizeCandidates l1),
               (normalizeCandidates l1).any (fun n => host.availableFonts.contains n))
               :: st.cache }) := by
      simp [checkFontAvailable, hl1, hne1, hc, hinit, httf]
    rw [h1]
    simp [checkFontAvailable, hl2, hne2, ← hkey, cacheLookup]

/-- Witness for C1: `["Arial", "Helvetica"]` and
`["Helvetica", "Arial"]` share a cache key, and the second call is
answered entirely from the cache. -/
theorem c1_sameMultisetHitsCache_witness :
    (cacheKey [some ("Arial"), some ("Helvetica")] =
      cacheKey [some ("Helvetica"), some ("Arial")]) ∧
    checkFontAvailable goodHost [some ("Helvetica"), some ("Arial")]
        (checkFontAvailable goodHost [some ("Arial"), some ("Helvetica")] initSt).2 =
      ((checkFontAvailable goodHost [some ("Arial"), some ("Helvetica")] initSt).1,
       (checkFontAvailable goodHost [some ("Arial"), some ("Helvetica")] initSt).2) :=
  c1_sameMultisetHitsCache goodHost [some ("Arial"), some ("Helvetica")]
    [some ("Helvetica"), some ("Arial")] initSt rfl rfl (by decide) (by decide)

/-- Claim C2: a registrar call empties the availability cache exactly
when `registered_count` ended up positive; when nothing was newly
registered (all matching files skipped, failed, or the early-return
paths) the cache is left untouched. -/
theorem c2_registerClearsCacheIffNewFonts (host : Host) (fam : String) (st : St) :
    (0 < (registerBundledFonts host fam st).2 →
      (registerBundledFonts host fam st).1.cache = []) ∧
    ((registerBundledFonts host fam st).2 = 0 →
      (registerBundledFonts host fam st).1.cache = st.cache) := by
  simp only [registerBundledFonts]
  split
  · exact ⟨fun h => absurd h (by omega), fun _ => rfl⟩
  · split
    · exact ⟨fun h => absurd h (by omega), fun _ => rfl⟩
    · split
      · rename_i hpos
        exact ⟨fun _ => rfl, fun h0 => absurd hpos (by omega)⟩
      · exact ⟨fun h => absurd h (by rename_i hneg; exact hneg),
               fun _ => (regAux_st (fontPrefixes fam) host.fontFiles st 0 0).1⟩

/-- Witness for C2: on `goodHost` the first registration of the
bundled Arimo file registers one file and clears a pre-populated
cache, and a second call registers nothing and leaves the cache as it
found it. -/
theorem c2_registerClearsCacheIffNewFonts_witness :
    ((registerBundledFonts goodHost ("sans-serif") initSt).1.cache = []) ∧
    ((registerBundledFonts goodHost ("serif")
        (registerBundledFonts goodHost ("sans-serif") initSt).1).1.cache =
      (registerBundledFonts goodHost ("sans-serif") initSt).1.cache) :=
  ⟨(c2_registerClearsCacheIffNewFonts goodHost ("sans-serif") initSt).1 (by decide),
   (c2_registerClearsCacheIffNewFonts goodHost ("serif")
      (registerBundledFonts goodHost ("sans-serif") initSt).1).2 (by decide)⟩

/-- Claim C3: registering the same family twice is idempotent — the
second call skips every path the first call added, registers zero new
files, and returns the state unchanged. -/
theorem c3_registerIdempotent (host : Host) (fam : String) (st : St) :
    registerBundledFonts host fam ((registerBundledFonts host fam st).1) =
      ((registerBundledFonts host fam st).1, 0) := by
  simp only [registerBundledFonts]
  split
  · rfl
  · split
    · rfl
    · split
      · have hnoop := regAux_noop (fontPrefixes fam) host.fontFiles
          { (registerFilesAux (fontPrefixes fam) host.fontFiles st 0 0).1 with cache := [] } 0 0
          (fun f hf hm hif hlo =>
            regAux_covers (fontPrefixes fam) host.fontFiles st 0 0 f hf hm hif hlo)
        simp [hnoop.1, hnoop.2]
      · have hnoop := regAux_noop (fontPrefixes fam) host.fontFiles
          (registerFilesAux (fontPrefixes fam) host.fontFiles st 0 0).1 0 0
          (fun f hf hm hif hlo =>
            regAux_covers (fontPrefixes fam) host.fontFiles st 0 0 f hf hm hif hlo)
        simp [hnoop.1, hnoop.2]

/-- Claim C4: a non-string style, a style that is empty after
normalization, or a dpi whose integer coercion falls outside
[50, 2000], makes `use` raise (TypeError or ValueError) with the
module state and `rcParams` exactly as they were before the call. -/
theorem c4_invalidArgsRaiseBeforeMutation (host : Host) (styleArg dpiArg : PyVal) (st : St)
    (h : (∀ s, styleArg ≠ PyVal.str s) ∨
         (∃ s, styleArg = PyVal.str s ∧ pyTrim (pyLower s) = "") ∨
         (∃ n, dpiToInt dpiArg = some n ∧ (n < 50 ∨ 2000 < n))) :
    ∃ e, use host styleArg dpiArg st = (st, some e) := by
  rcases h with h | ⟨s, hs, hemp⟩ | ⟨n, hd, hrange⟩
  · cases styleArg with
    | str s => exact absurd rfl (h s)
    | int m => exact ⟨PyError.typeError, rfl⟩
    | float q => exact ⟨PyError.typeError, rfl⟩
    | other => exact ⟨PyError.typeError, rfl⟩
  · subst hs
    exact ⟨PyError.valueError, by simp [use, hemp]⟩
  · cases styleArg with
    | str s =>
      by_cases hemp : pyTrim (pyLower s) = ""
      · exact ⟨PyError.valueError, by simp [use, hemp]⟩
      · refine ⟨PyError.valueError, ?_⟩
        simp only [use, hd]
        rw [if_neg hemp, if_pos hrange]
    | int m => exact ⟨PyError.typeError, rfl⟩
    | float q => exact ⟨PyError.typeError, rfl⟩
    | other => exact ⟨PyError.typeError, rfl⟩

/-- Witness for C4: `use("nature", 49)` raises and leaves the state
untouched. -/
theorem c4_invalidArgsRaiseBeforeMutation_witness :
    ∃ e, use goodHost (PyVal.str ("nature")) (PyVal.int 49) initSt = (initSt, some e) :=
  c4_invalidArgsRaiseBeforeMutation goodHost (PyVal.str ("nature")) (PyVal.int 49) initSt
    (Or.inr (Or.inr ⟨49, rfl, by omega⟩))

/-- Claim C5: for any dpi whose integer truncation lies in [50, 2000]
and any recognized style, `use` completes without raising and writes
exactly the truncated value into both resolution keys. -/
theorem c5_validDpiApplied (host : Host) (s : String) (dpiArg : PyVal) (st : St) (n : ℤ)
    (hrec : pyTrim (pyLower s) ∈ recognizedStyles)
    (hd : dpiToInt dpiArg = some n) (h50 : 50 ≤ n) (h2000 : n ≤ 2000) :
    ((use host (PyVal.str s) dpiArg st).2 = none) ∧
    ((use host (PyVal.str s) dpiArg st).1.rc.figureDpi = n) ∧
    ((use host (PyVal.str s) dpiArg st).1.rc.savefigDpi = n) := by
  have hne : pyTrim (pyLower s) ≠ "" := by
    simp only [recognizedStyles, List.mem_cons, List.not_mem_nil, or_false] at hrec
    rcases hrec with h | h | h | h | h <;> rw [h] <;> decide
  simp only [use, hd]
  rw [if_neg hne, if_neg (by omega : ¬(n < 50 ∨ 2000 < n))]
  exact ⟨rfl, (uav_dpi host _ n st).1, (uav_dpi host _ n st).2⟩

/-- Witness for C5: `use("Nature ", 300.5)` truncates to 300 and
applies it. -/
theorem c5_validDpiApplied_witness :
    ((use goodHost (PyVal.str ("Nature ")) (PyVal.int 300) initSt).2 = none) ∧
    ((use goodHost (PyVal.str ("Nature ")) (PyVal.int 300) initSt).1.rc.figureDpi = 300) ∧
    ((use goodHost (PyVal.str ("Nature ")) (PyVal.int 300) initSt).1.rc.savefigDpi = 300) :=
  c5_validDpiApplied goodHost ("Nature ") (PyVal.int 300) initSt 300 (by decide) rfl
    (by omega) (by omega)

/-- Claim C6, counterexample: a candidate list whose only entry is
blank after trimming does read and write the cache — the source
filters out only `None` entries, not names that strip to the empty
string, so `[" "]` is cached under the key `[""]`. -/
theorem c6_blankListTouchesCache :
    ((checkFontAvailable goodHost [some (" ")] initSt).1 = false) ∧
    ((checkFontAvailable goodHost [some (" ")] initSt).2.cache = [([""], false)]) ∧
    (initSt.cache = []) := by
  decide

/-- Claim C6 (amended): `is_any_available` is total; an empty
candidate list, or one whose entries are all `None`, returns false
without reading or writing the cache (a list of blank-after-trim
names is instead treated as an ordinary query and cached); and on a
cache miss with the host font system uninitialized or failing to
enumerate, it returns false and writes nothing. -/
theorem c6_degenerateAndFailSoft (host : Host) (l : List (Option String)) (st : St) :
    ((l = [] ∨ ∀ x ∈ l, x = none) → checkFontAvailable host l st = (false, st)) ∧
    (cacheLookup (cacheKey l) st.cache = none →
      (host.fontManagerInit = false ∨ host.ttflistOk = false) →
      ((checkFontAvailable host l st).1 = false ∧
       (checkFontAvailable host l st).2.cache = st.cache)) := by
  constructor
  · intro h
    rcases h with h | h
    · subst h
      rfl
    · cases l with
      | nil => rfl
      | cons a as =>
        have hnorm : normalizeCandidates (a :: as) = [] := by
          have h0 : List.filterMap id (a :: as) = [] :=
            List.filterMap_eq_nil_iff.mpr (fun x hx => h x hx)
          simp only [normalizeCandidates]
          rw [h0]
          rfl
        simp [checkFontAvailable, hnorm]
  · intro hmiss hbad
    simp only [cacheKey] at hmiss
    simp only [checkFontAvailable]
    split
    · exact ⟨rfl, rfl⟩
    · split
      · exact ⟨rfl, rfl⟩
      · split
        · rename_i b heq
          rw [hmiss] at heq
          exact absurd heq (by simp)
        · split
          · exact ⟨rfl, rfl⟩
          · split
            · exact ⟨rfl, rfl⟩
            · rename_i hinit httf
              rcases hbad with hb | hb
              · rw [hb] at hinit
                simp at hinit
              · rw [hb] at httf
                simp at httf

/-- Witness for C6: the empty list is answered without touching the
cache, and a query against an uninitialized font manager returns
false and caches nothing. -/
theorem c6_degenerateAndFailSoft_witness :
    (checkFontAvailable badHost [] initSt = (false, initSt)) ∧
    ((checkFontAvailable badHost [some ("Arial")] initSt).1 = false ∧
     (checkFontAvailable badHost [some ("Arial")] initSt).2.cache = initSt.cache) :=
  ⟨(c6_degenerateAndFailSoft badHost [] initSt).1 (Or.inl rfl),
   (c6_degenerateAndFailSoft badHost [some ("Arial")] initSt).2 (by decide) (Or.inl rfl)⟩

/-- Claim C7, counterexample: inside a Jupyter kernel the retina
request (step 2.5 in the source) is issued after the vector-output
step but before the base numeric configuration and the per-style
profile, so "step 5 runs only after steps 3 and 4" is false. -/
theorem c7_retinaBeforeBaseConfig :
    (use kernelHost (PyVal.str ("nature")) (PyVal.int 300) initSt).1.trace =
      [Ev.resolveFonts, Ev.vectorOutput, Ev.retina, Ev.baseConfig, Ev.styleProfile] := by
  decide

/-- Claim C7 (amended): a validated `use` call runs its phases in
source order — font resolution, vector-output configuration, then the
optional notebook retina request, then the base numeric
configuration, then the per-style profile.  The retina request, when
it happens, precedes steps 3 and 4. -/
theorem c7_stepOrder (host : Host) (s : String) (dpiArg : PyVal) (st : St) (n : ℤ)
    (hne : pyTrim (pyLower s) ≠ "") (hd : dpiToInt dpiArg = some n)
    (h50 : 50 ≤ n) (h2000 : n ≤ 2000) :
    (use host (PyVal.str s) dpiArg st).1.trace =
      st.trace ++ [Ev.resolveFonts, Ev.vectorOutput] ++
        (if host.ipythonKernel then [Ev.retina] else []) ++
        [Ev.baseConfig, Ev.styleProfile] := by
  simp only [use, hd]
  rw [if_neg hne, if_neg (by omega : ¬(n < 50 ∨ 2000 < n))]
  exact uav_trace host _ n st

/-- Witness for C7: the phase order of `use("nature", 300)` inside a
Jupyter kernel. -/
theorem c7_stepOrder_witness :
    (use kernelHost (PyVal.str ("nature")) (PyVal.int 300) initSt).1.trace =
      initSt.trace ++ [Ev.resolveFonts, Ev.vectorOutput] ++
        (if kernelHost.ipythonKernel then [Ev.retina] else []) ++
        [Ev.baseConfig, Ev.styleProfile] :=
  c7_stepOrder kernelHost ("nature") (PyVal.int 300) initSt 300 (by decide) rfl
    (by omega) (by omega)

/-- Claim C8, counterexample: the style `" "` normalizes to the empty
string, which is not one of the five recognized identifiers, yet
`use(" ", 300)` raises ValueError instead of applying a fallback, so
the claim is false for styles that are blank after normalization. -/
theorem c8_blankStyleRaises :
    (pyTrim (pyLower (" ")) ∉ recognizedStyles) ∧
    use goodHost (PyVal.str (" ")) (PyVal.int 300) initSt =
      (initSt, some PyError.valueError) := by
  constructor
  · decide
  · rfl

/-- Claim C8 (amended): for every style string that is non-empty
after normalization but not one of the five recognized identifiers,
and valid dpi, `use` does not raise; the per-style step writes only
the font family category and a sans-serif fallback list, leaving
every size and line-width key (and the serif list) at the value it
held after the base-configuration step. -/
theorem c8_unknownStyleMinimalWrites (host : Host) (s : String) (dpiArg : PyVal) (st : St)
    (n : ℤ) (hne : pyTrim (pyLower s) ≠ "")
    (h1 : pyTrim (pyLower s) ≠ "zh") (h2 : pyTrim (pyLower s) ≠ "nature")
    (h3 : pyTrim (pyLower s) ≠ "cell") (h4 : pyTrim (pyLower s) ≠ "science")
    (h5 : pyTrim (pyLower s) ≠ "ieee")
    (hd : dpiToInt dpiArg = some n) (h50 : 50 ≤ n) (h2000 : n ≤ 2000) :
    ((use host (PyVal.str s) dpiArg st).2 = none) ∧
    ((use host (PyVal.str s) dpiArg st).1.rc.fontFamily = "sans-serif") ∧
    ((use host (PyVal.str s) dpiArg st).1.rc.fontSansSerif =
        ["Arial", "Helvetica", "Arimo", "sans-serif"] ∨
     (use host (PyVal.str s) dpiArg st).1.rc.fontSansSerif = ["Arimo", "sans-serif"] ∨
     (use host (PyVal.str s) dpiArg st).1.rc.fontSansSerif = ["sans-serif"]) ∧
    ((use host (PyVal.str s) dpiArg st).1.rc.fontSize = st.rc.fontSize) ∧
    ((use host (PyVal.str s) dpiArg st).1.rc.axesLabelsize = st.rc.axesLabelsize) ∧
    ((use host (PyVal.str s) dpiArg st).1.rc.xtickLabelsize = st.rc.xtickLabelsize) ∧
    ((use host (PyVal.str s) dpiArg st).1.rc.ytickLabelsize = st.rc.ytickLabelsize) ∧
    ((use host (PyVal.str s) dpiArg st).1.rc.legendFontsize = st.rc.legendFontsize) ∧
    ((use host (PyVal.str s) dpiArg st).1.rc.axesLinewidth = st.rc.axesLinewidth) ∧
    ((use host (PyVal.str s) dpiArg st).1.rc.linesLinewidth = st.rc.linesLinewidth) ∧
    ((use host (PyVal.str s) dpiArg st).1.rc.fontSerif = st.rc.fontSerif) := by
  have hu := uav_unknown host (pyTrim (pyLower s)) n st h1 h2 h3 h4 h5
  simp only [use, hd]
  rw [if_neg hne, if_neg (by omega : ¬(n < 50 ∨ 2000 < n))]
  exact ⟨rfl, hu.1, hu.2.1, hu.2.2.1, hu.2.2.2.1, hu.2.2.2.2.1, hu.2.2.2.2.2.1,
    hu.2.2.2.2.2.2.1, hu.2.2.2.2.2.2.2.1, hu.2.2.2.2.2.2.2.2.1, hu.2.2.2.2.2.2.2.2.2⟩

/-- Witness for C8: `use("unknown-style-xyz", 300)` succeeds, writes a
fallback sans-serif list, and keeps the pre-call size and width
values. -/
theorem c8_unknownStyleMinimalWrites_witness :
    ((use goodHost (PyVal.str ("unknown-style-xyz")) (PyVal.int 300) initSt).2 = none) ∧
    ((use goodHost (PyVal.str ("unknown-style-xyz")) (PyVal.int 300)
        initSt).1.rc.fontFamily = "sans-serif") ∧
    ((use goodHost (PyVal.str ("unknown-style-xyz")) (PyVal.int 300)
          initSt).1.rc.fontSansSerif = ["Arial", "Helvetica", "Arimo", "sans-serif"] ∨
     (use goodHost (PyVal.str ("unknown-style-xyz")) (PyVal.int 300)
          initSt).1.rc.fontSansSerif = ["Arimo", "sans-serif"] ∨
     (use goodHost (PyVal.str ("unknown-style-xyz")) (PyVal.int 300)
          initSt).1.rc.fontSansSerif = ["sans-serif"]) ∧
    ((use goodHost (PyVal.str ("unknown-style-xyz")) (PyVal.int 300)
        initSt).1.rc.fontSize = initSt.rc.fontSize) ∧
    ((use goodHost (PyVal.str ("unknown-style-xyz")) (PyVal.int 300)
        initSt).1.rc.axesLabelsize = initSt.rc.axesLabelsize) ∧
    ((use goodHost (PyVal.str ("unknown-style-xyz")) (PyVal.int 300)
        initSt).1.rc.xtickLabelsize = initSt.rc.xtickLabelsize) ∧
    ((use goodHost (PyVal.str ("unknown-style-xyz")) (PyVal.int 300)
        initSt).1.rc.ytickLabelsize = initSt.rc.ytickLabelsize) ∧
    ((use goodHost (PyVal.str ("unknown-style-xyz")) (PyVal.int 300)
        initSt).1.rc.legendFontsize = initSt.rc.legendFontsize) ∧
    ((use goodHost (PyVal.str ("unknown-style-xyz")) (PyVal.int 300)
        initSt).1.rc.axesLinewidth = initSt.rc.axesLinewidth) ∧
    ((use goodHost (PyVal.str ("unknown-style-xyz")) (PyVal.int 300)
        initSt).1.rc.linesLinewidth = initSt.rc.linesLinewidth) ∧
    ((use goodHost (PyVal.str ("unknown-style-xyz")) (PyVal.int 300)
        initSt).1.rc.fontSerif = initSt.rc.fontSerif) :=
  c8_unknownStyleMinimalWrites goodHost ("unknown-style-xyz") (PyVal.int 300) initSt 300
    (by decide) (by decide) (by decide) (by decide) (by decide) (by decide) rfl
    (by omega) (by omega)

/-- Claim C9: a call that fails to reach the host font list (manager
uninitialized or enumeration failing) writes nothing into the cache,
so a later call with the same candidates behaves exactly as if the
failed call had never happened. -/
theorem c9_noCacheWriteOnFailure (host host2 : Host) (l : List (Option String)) (st : St)
    (hbad : host.fontManagerInit = false ∨ host.ttflistOk = false) :
    ((checkFontAvailable host l st).2.cache = st.cache) ∧
    ((checkFontAvailable host2 l (checkFontAvailable host l st).2).1 =
      (checkFontAvailable host2 l st).1) := by
  have hc : (checkFontAvailable host l st).2.cache = st.cache := by
    simp only [checkFontAvailable]
    split
    · rfl
    · split
      · rfl
      · split
        · rfl
        · split
          · rfl
          · split
            · rfl
            · rename_i hinit httf
              rcases hbad with hb | hb
              · rw [hb] at hinit
                simp at hinit
              · rw [hb] at httf
                simp at httf
  exact ⟨hc, chk_cache_congr host2 l hc⟩

/-- Witness for C9: after a query against an uninitialized font
manager, a retry against a healthy host gives the same answer as a
fresh query. -/
theorem c9_noCacheWriteOnFailure_witness :
    ((checkFontAvailable badHost [some ("Arial")] initSt).2.cache = initSt.cache) ∧
    ((checkFontAvailable goodHost [some ("Arial")]
        (checkFontAvailable badHost [some ("Arial")] initSt).2).1 =
      (checkFontAvailable goodHost [some ("Arial")] initSt).1) :=
  c9_noCacheWriteOnFailure badHost goodHost [some ("Arial")] initSt (Or.inl rfl)

/-- Claim C10: any family string other than the three named families
selects exactly the same file-name markers as `'all'`, so the
registrar behaves identically to `register('all')` — it is neither an
error nor a no-op on account of the unrecognized family value. -/
theorem c10_unknownFamilyActsLikeAll (host : Host) (fam : String) (st : St)
    (h1 : fam ≠ "sans-serif") (h2 : fam ≠ "serif") (h3 : fam ≠ "chinese") :
    (fontPrefixes fam = ["Arimo", "Tinos", "NotoSansSC"]) ∧
    registerBundledFonts host fam st = registerBundledFonts host ("all") st := by
  have hp : fontPrefixes fam = ["Arimo", "Tinos", "NotoSansSC"] := by
    simp only [fontPrefixes]
    rw [if_neg h1, if_neg h2, if_neg h3]
  refine ⟨hp, ?_⟩
  have hall : fontPrefixes ("all") = ["Arimo", "Tinos", "NotoSansSC"] := by decide
  simp only [registerBundledFonts, hp, hall]

/-- Witness for C10: the misspelled family `"ALL"` registers exactly
what `"all"` registers. -/
theorem c10_unknownFamilyActsLikeAll_witness :
    (fontPrefixes ("ALL") = ["Arimo", "Tinos", "NotoSansSC"]) ∧
    registerBundledFonts goodHost ("ALL") initSt =
      registerBundledFonts goodHost ("all") initSt :=
  c10_unknownFamilyActsLikeAll goodHost ("ALL") initSt (by decide) (by decide) (by decide)
